import Mathlib

/-!
Verification of the robokitty budget system (`src/main.rs`) against its
natural-language specification.

The repository ships `src/main.rs` (the `BudgetSystem` command layer) but the
`core::models` module (the `Team`, `Vote`, `Raffle`, `Epoch`, … definitions) is
not part of the source tree here; only its declarations and callers appear in
`main.rs`.  Definitions below that embed `main.rs` code are translated directly
from the source; definitions for the missing `core::models` operations carry a
doc comment starting with `Modelled from the spec:` and follow the
specification's words.

Machine floats (`f64`) are embedded as rationals (`ℚ`), `u32`/`usize` counters
as `Nat`, `Uuid` identifiers as `Nat`, and `HashMap`s as association lists.
-/

namespace Robokitty

abbrev TeamId := Nat

/-- Team status variant from the data model: Earner with trailing revenue
samples, Supporter, or Inactive. -/
inductive TeamStatus
  | Earner (trailingMonthlyRevenue : List Nat)
  | Supporter
  | Inactive
deriving DecidableEq, BEq

/-- A registered team: identity, name, representative and status. -/
structure Team where
  id : TeamId
  name : String
  representative : String
  status : TeamStatus
deriving DecidableEq, BEq

/-- A ballot choice: Yes, No or Abstain. -/
inductive VoteChoice
  | Yes
  | No
  | Abstain
deriving DecidableEq, BEq

/-- A (yes, no) tally pair. -/
structure VoteCount where
  yes : Nat
  no : Nat
deriving DecidableEq, BEq

/-- Modelled from the spec: `VoteCount::new()` produces an all-zero tally
(used by the historical vote import in `main.rs`). -/
def VoteCount.new : VoteCount := ⟨0, 0⟩

/-- Vote type variant: Formal carries the raffle id, total eligible seats,
approval threshold and the counted/uncounted credit points; Informal carries
nothing. -/
inductive VoteType
  | Formal (raffleId : Nat) (totalEligibleSeats : Nat) (threshold : ℚ)
           (countedPoints : Nat) (uncountedPoints : Nat)
  | Informal
deriving DecidableEq, BEq

/-- Vote lifecycle status. -/
inductive VoteStatus
  | Open
  | Closed
deriving DecidableEq, BEq

/-- Participation record: which teams cast ballots, partitioned by
counted/uncounted for Formal votes, an unordered set for Informal votes. -/
inductive VoteParticipation
  | Formal (counted : List TeamId) (uncounted : List TeamId)
  | Informal (participants : List TeamId)
deriving DecidableEq, BEq

/-- Vote result: counted and uncounted tallies plus the pass flag for Formal
votes, a single tally for Informal votes. -/
inductive VoteResult
  | Formal (counted : VoteCount) (uncounted : VoteCount) (passed : Bool)
  | Informal (count : VoteCount)
deriving DecidableEq, BEq

/-- A vote aggregate.  The cast ballots are stored per team (`ballots`); a
team's latest cast is its effective ballot. -/
structure Vote where
  id : Nat
  proposalId : Nat
  epochId : Nat
  voteType : VoteType
  status : VoteStatus
  participation : VoteParticipation
  ballots : List (TeamId × VoteChoice)
  result : Option VoteResult
  isHistorical : Bool
deriving DecidableEq, BEq

/-- The outcome of a raffle: the disjoint ordered counted and uncounted team
sequences. -/
structure RaffleResult where
  counted : List TeamId
  uncounted : List TeamId
deriving DecidableEq, BEq

/-- Constructor mirroring `RaffleResult::new` as called from `main.rs`. -/
def RaffleResult.new (counted uncounted : List TeamId) : RaffleResult :=
  ⟨counted, uncounted⟩

/-- Modelled from the spec: `Vote::new` from the missing `core::models`
module — a fresh vote starts Open with empty participation, no ballots and no
result.  The id is supplied by the caller (standing in for `Uuid::new_v4`). -/
def Vote.new (id proposalId epochId : Nat) (voteType : VoteType)
    (isHistorical : Bool) : Vote :=
  { id := id
    proposalId := proposalId
    epochId := epochId
    voteType := voteType
    status := VoteStatus.Open
    participation :=
      match voteType with
      | VoteType.Formal _ _ _ _ _ => VoteParticipation.Formal [] []
      | VoteType.Informal => VoteParticipation.Informal []
    ballots := []
    result := none
    isHistorical := isHistorical }

/-- Appends a team to a participation list unless it is already present, so a
team appears in participation at most once. -/
def addParticipant (l : List TeamId) (t : TeamId) : List TeamId :=
  if l.contains t then l else l ++ [t]

/-- Overwrites the team's ballot: any prior entry for the team is dropped and
the new choice appended. -/
def updateBallot (bs : List (TeamId × VoteChoice)) (t : TeamId)
    (c : VoteChoice) : List (TeamId × VoteChoice) :=
  bs.filter (fun b => b.1 ≠ t) ++ [(t, c)]

/-- Modelled from the spec: `Vote::cast_vote` from the missing `core::models`
module.  Casting fails on a closed vote; for a Formal vote only teams in the
bound raffle result's counted or uncounted set may cast (an eligibility
error otherwise); re-casting by the same team overwrites its prior ballot;
Informal votes accept any team. -/
def Vote.castVote (v : Vote) (teamId : TeamId) (choice : VoteChoice)
    (raffleResult : Option RaffleResult) : Except String Vote :=
  if v.status = VoteStatus.Closed then
    Except.error "Cannot vote: vote is closed"
  else
    match v.voteType, v.participation with
    | VoteType.Formal _ _ _ _ _, VoteParticipation.Formal counted uncounted =>
      match raffleResult with
      | none => Except.error "No raffle result available for formal vote"
      | some rr =>
        if rr.counted.contains teamId then
          Except.ok { v with
            participation :=
              VoteParticipation.Formal (addParticipant counted teamId) uncounted
            ballots := updateBallot v.ballots teamId choice }
        else if rr.uncounted.contains teamId then
          Except.ok { v with
            participation :=
              VoteParticipation.Formal counted (addParticipant uncounted teamId)
            ballots := updateBallot v.ballots teamId choice }
        else
          Except.error "Team is not eligible to vote"
    | VoteType.Informal, VoteParticipation.Informal participants =>
      Except.ok { v with
        participation :=
          VoteParticipation.Informal (addParticipant participants teamId)
        ballots := updateBallot v.ballots teamId choice }
    | _, _ => Except.error "Vote type and participation mismatch"

/-- Number of effective ballots with the given choice cast by teams from the
given set. -/
def countChoice (bs : List (TeamId × VoteChoice)) (teams : List TeamId)
    (c : VoteChoice) : Nat :=
  (bs.filter (fun b => teams.contains b.1 && (b.2 == c))).length

/-- Tally of the ballots cast by teams from the given set. -/
def tallyFor (bs : List (TeamId × VoteChoice)) (teams : List TeamId) :
    VoteCount :=
  ⟨countChoice bs teams VoteChoice.Yes, countChoice bs teams VoteChoice.No⟩

/-- The pass decision for a Formal vote: the counted yes-share must reach the
threshold (an exactly equal share passes); with no counted yes or no ballots
the vote does not pass. -/
def formalPassed (counted : VoteCount) (threshold : ℚ) : Bool :=
  if counted.yes + counted.no = 0 then false
  else decide (threshold ≤ (counted.yes : ℚ) / ((counted.yes : ℚ) + (counted.no : ℚ)))

/-- Modelled from the spec: `Vote::close` from the missing `core::models`
module.  Closing an already-closed vote fails; for Formal votes the
counted-set and uncounted-set ballots are tallied separately and
`passed = counted.yes / (counted.yes + counted.no) ≥ threshold` when the
denominator is non-zero, else `passed = false`; for Informal votes all
ballots are tallied into a single pair with no pass/fail semantics. -/
def Vote.close (v : Vote) : Except String Vote :=
  if v.status = VoteStatus.Closed then
    Except.error "Vote is already closed"
  else
    match v.voteType, v.participation with
    | VoteType.Formal _ _ threshold _ _, VoteParticipation.Formal counted uncounted =>
      let cc := tallyFor v.ballots counted
      let uc := tallyFor v.ballots uncounted
      Except.ok { v with
        status := VoteStatus.Closed
        result := some (VoteResult.Formal cc uc (formalPassed cc threshold)) }
    | VoteType.Informal, VoteParticipation.Informal participants =>
      let c := tallyFor v.ballots participants
      Except.ok { v with
        status := VoteStatus.Closed
        result := some (VoteResult.Informal c) }
    | _, _ => Except.error "Vote type and participation mismatch"

/-- Modelled from the spec: `Vote::add_participant` used by the historical
vote import — records participation (counted or uncounted) without a ballot. -/
def Vote.addParticipantRecord (v : Vote) (teamId : TeamId) (isCounted : Bool) :
    Except String Vote :=
  match v.participation with
  | VoteParticipation.Formal counted uncounted =>
    if isCounted then
      Except.ok { v with participation :=
        VoteParticipation.Formal (addParticipant counted teamId) uncounted }
    else
      Except.ok { v with participation :=
        VoteParticipation.Formal counted (addParticipant uncounted teamId) }
  | VoteParticipation.Informal participants =>
    Except.ok { v with participation :=
      VoteParticipation.Informal (addParticipant participants teamId) }

/-- Raffle configuration, mirroring the fields `main.rs` passes to
`RaffleConfig::new` (proposal id, epoch id, seat counts, optional block
numbers, randomness, exclusion set, optional explicit team ordering,
historical flag).  An extra positional argument that is `None` at every call
site in `main.rs` is omitted. -/
structure RaffleConfig where
  proposalId : Nat
  epochId : Nat
  totalCountedSeats : Nat
  maxEarnerSeats : Nat
  initiationBlock : Option Nat
  randomnessBlock : Option Nat
  blockRandomness : String
  excludedTeams : List TeamId
  customTeamOrder : Option (List TeamId)
  isHistorical : Bool
deriving DecidableEq, BEq

/-- A raffle ticket: owning team, global sequential index, and score. -/
structure RaffleTicket where
  teamId : TeamId
  index : Nat
  score : ℚ
deriving DecidableEq, BEq

/-- A raffle aggregate: configuration, the team snapshot taken at raffle
time, the allocated tickets and the optional result. -/
structure Raffle where
  id : Nat
  config : RaffleConfig
  teamSnapshots : List Team
  tickets : List RaffleTicket
  result : Option RaffleResult
deriving DecidableEq, BEq

/-- Modelled from the spec: the per-team ticket count — Earner teams receive
a count derived from a monotonic function of their trailing revenue with a
floor of 1, Supporter teams a fixed baseline count, Inactive teams none. -/
def ticketCountFor : TeamStatus → Nat
  | TeamStatus.Earner revenue => max 1 (Nat.sqrt (revenue.sum / 1000))
  | TeamStatus.Supporter => 1
  | TeamStatus.Inactive => 0

/-- Modelled from the spec: tickets are assigned cumulatively in team order
to fixed, non-overlapping index ranges; a team with N tickets owns N
consecutive indices.  Scores start at zero until generated. -/
def allocateTickets : List Team → Nat → List RaffleTicket
  | [], _ => []
  | t :: rest, start =>
    (List.range (ticketCountFor t.status)).map
      (fun i => ⟨t.id, start + i, 0⟩)
      ++ allocateTickets rest (start + ticketCountFor t.status)

/-- Whether a team is eligible for a raffle under a configuration: not in the
exclusion set and not Inactive. -/
def eligibleFor (config : RaffleConfig) (t : Team) : Bool :=
  !(config.excludedTeams.contains t.id) &&
    !(match t.status with
      | TeamStatus.Inactive => true
      | _ => false)

/-- Modelled from the spec: `Raffle::new` from the missing `core::models`
module.  A configuration with `max_earner_seats > total_counted_seats` is
rejected before any ticket is generated; otherwise the eligible (non-excluded,
non-Inactive) teams are snapshotted — reordered by the explicit custom team
order when one is given — and tickets are allocated cumulatively.  The id is
supplied by the caller (standing in for `Uuid::new_v4`). -/
def Raffle.new (id : Nat) (config : RaffleConfig) (teams : List Team) :
    Except String Raffle :=
  if config.maxEarnerSeats > config.totalCountedSeats then
    Except.error "max_earner_seats cannot be greater than total_counted_seats"
  else
    let eligible := teams.filter (eligibleFor config)
    let ordered :=
      match config.customTeamOrder with
      | none => eligible
      | some ord =>
        eligible.insertionSort (fun a b => ord.indexOf a.id ≤ ord.indexOf b.id)
    Except.ok
      { id := id
        config := config
        teamSnapshots := ordered
        tickets := allocateTickets ordered 0
        result := none }

/-- Modelled from the spec: a ticket's score combines the external randomness
value with the ticket's global index through a cryptographic hash.  The hash
is abstracted as a concrete deterministic mixing function over the randomness
string and the index (the exact cryptographic hash is immaterially opaque to
the specification's properties). -/
def hashCombine (randomness : String) (index : Nat) : Nat :=
  (randomness.data.foldl (fun h c => (h * 131 + c.toNat + 1) % (2 ^ 64)) 5381
      * 2654435761 + index * 40503 + 1) % (2 ^ 64)

/-- Modelled from the spec: the hash output is normalized to a value in
[0, 1). -/
def scoreFromRandomness (randomness : String) (index : Nat) : ℚ :=
  (hashCombine randomness index : ℚ) / ((2 : ℚ) ^ 64)

/-- Modelled from the spec: `Raffle::generate_ticket_scores` — every ticket's
score is recomputed from the configuration's randomness and the ticket's
index. -/
def Raffle.generateTicketScores (r : Raffle) : Raffle :=
  { r with tickets := r.tickets.map fun t =>
      { t with score := scoreFromRandomness r.config.blockRandomness t.index } }

/-- A team's best ticket score within a raffle (its team score). -/
def Raffle.bestScore (r : Raffle) (t : TeamId) : ℚ :=
  ((r.tickets.filter (fun tk => tk.teamId == t)).map RaffleTicket.score).foldr
    max 0

/-- The smallest ticket index a team owns (used for deterministic
tie-breaking; teams without tickets sort last among ties). -/
def Raffle.minTicketIndex (r : Raffle) (t : TeamId) : Nat :=
  ((r.tickets.filter (fun tk => tk.teamId == t)).map RaffleTicket.index).foldr
    min (r.tickets.length + 1)

/-- The ranking relation on snapshot teams: higher team score first, ties
broken by ticket index ascending. -/
def Raffle.ranksBefore (r : Raffle) (a b : Team) : Prop :=
  r.bestScore b.id < r.bestScore a.id ∨
    (r.bestScore a.id = r.bestScore b.id ∧
      r.minTicketIndex a.id ≤ r.minTicketIndex b.id)

instance (r : Raffle) : DecidableRel r.ranksBefore := fun _ _ =>
  inferInstanceAs (Decidable (_ ∨ _))

/-- The snapshot team ids ranked by team score descending, ties broken by
ticket index ascending. -/
def Raffle.rankedTeamIds (r : Raffle) : List TeamId :=
  (r.teamSnapshots.insertionSort r.ranksBefore).map Team.id

/-- Whether the given id belongs to an Earner team of the snapshot. -/
def Raffle.isEarnerId (r : Raffle) (t : TeamId) : Bool :=
  r.teamSnapshots.any (fun s =>
    s.id == t && match s.status with
                 | TeamStatus.Earner _ => true
                 | _ => false)

/-- Modelled from the spec: the seat-selection computation — the top
`max_earner_seats` Earner teams by rank form the earner seats; the remaining
counted seats up to `total_counted_seats` are filled by the highest-ranked
remaining teams (top-ranked Supporters, back-filling any earner-seat
shortfall regardless of role, never exceeding `total_counted_seats`); all
other eligible teams form the uncounted sequence. -/
def Raffle.computeSelection (r : Raffle) : List TeamId × List TeamId :=
  let ranked := r.rankedTeamIds
  let countedEarners := (ranked.filter r.isEarnerId).take r.config.maxEarnerSeats
  let rest := ranked.filter (fun t => !(countedEarners.contains t))
  let counted :=
    countedEarners ++ rest.take (r.config.totalCountedSeats - countedEarners.length)
  let uncounted := ranked.filter (fun t => !(counted.contains t))
  (counted, uncounted)

/-- Modelled from the spec: `Raffle::select_deciding_teams` stores the
computed counted/uncounted selection as the raffle's result. -/
def Raffle.selectDecidingTeams (r : Raffle) : Raffle :=
  { r with result := some ⟨r.computeSelection.1, r.computeSelection.2⟩ }

/-- Setter mirroring `Raffle::set_result` as called from `main.rs`. -/
def Raffle.setResult (r : Raffle) (res : RaffleResult) : Raffle :=
  { r with result := some res }

/-- The body of `finalize_raffle` from `main.rs` acting on the raffle itself:
store the blocks and randomness into the configuration, then generate ticket
scores and select the deciding teams. -/
def Raffle.finalize (r : Raffle) (initiationBlock randomnessBlock : Nat)
    (randomness : String) : Raffle :=
  ({ r with config := { r.config with
      initiationBlock := some initiationBlock
      randomnessBlock := some randomnessBlock
      blockRandomness := randomness } }).generateTicketScores.selectDecidingTeams

/-- Proposal resolution variants. -/
inductive Resolution
  | Approved
  | Rejected
  | Invalid
  | Duplicate
  | Retracted
deriving DecidableEq, BEq

/-- Proposal lifecycle status. -/
inductive ProposalStatus
  | Open
  | Closed
deriving DecidableEq, BEq

/-- Payment status of a budget request. -/
inductive PaymentStatus
  | Unpaid
  | Paid
deriving DecidableEq, BEq

/-- Budget-request details attached to a proposal (the date fields of the
source are elided — no claim concerns them). -/
structure BudgetRequestDetails where
  team : Option TeamId
  requestAmounts : List (String × ℚ)
  paymentStatus : Option PaymentStatus
deriving DecidableEq, BEq

/-- Modelled from the spec: whether the budget request has been paid. -/
def BudgetRequestDetails.isPaid (d : BudgetRequestDetails) : Bool :=
  match d.paymentStatus with
  | some PaymentStatus.Paid => true
  | _ => false

/-- A funding proposal. -/
structure Proposal where
  id : Nat
  epochId : Nat
  title : String
  url : Option String
  status : ProposalStatus
  resolution : Option Resolution
  budgetRequestDetails : Option BudgetRequestDetails
  isHistorical : Bool
deriving DecidableEq, BEq

/-- Modelled from the spec: `Proposal::is_actionable` — a proposal can still
progress only while it has no resolution yet, is not paid, and is still
Open. -/
def Proposal.isActionable (p : Proposal) : Bool :=
  (match p.status with
   | ProposalStatus.Open => true
   | ProposalStatus.Closed => false) &&
  (match p.resolution with
   | none => true
   | some _ => false) &&
  !((p.budgetRequestDetails.map BudgetRequestDetails.isPaid).getD false)

/-- Epoch lifecycle status. -/
inductive EpochStatus
  | Planned
  | Active
  | Closed
deriving DecidableEq, BEq

/-- The reward pool attached to an epoch: token symbol and amount. -/
structure EpochReward where
  token : String
  amount : ℚ
deriving DecidableEq, BEq

/-- A per-team reward computed at epoch close: the stored percentage and the
token amount. -/
structure TeamReward where
  percentage : ℚ
  amount : ℚ
deriving DecidableEq, BEq

/-- Modelled from the spec: `TeamReward::new` packages a percentage and an
amount (no failing input arises in the embedded flows). -/
def TeamReward.new (percentage amount : ℚ) : Except String TeamReward :=
  Except.ok ⟨percentage, amount⟩

/-- A governance epoch (the temporal fields of the source are elided — no
claim concerns them). -/
structure Epoch where
  id : Nat
  name : String
  status : EpochStatus
  reward : Option EpochReward
  associatedProposals : List Nat
  teamRewards : List (TeamId × TeamReward)
deriving DecidableEq, BEq

/-- Modelled from the spec: `Epoch::set_team_reward` persists a team's share
percentage and amount, overwriting any previous entry for the team. -/
def Epoch.setTeamReward (e : Epoch) (teamId : TeamId) (percentage amount : ℚ) :
    Epoch :=
  { e with teamRewards :=
      e.teamRewards.filter (fun kv => kv.1 ≠ teamId) ++
        [(teamId, ⟨percentage, amount⟩)] }

/-- Whether the epoch is closed. -/
def Epoch.isClosed (e : Epoch) : Bool :=
  match e.status with
  | EpochStatus.Closed => true
  | _ => false

/-- The relevant fields of `AppConfig` consumed by the embedded operations. -/
structure AppConfig where
  defaultTotalCountedSeats : Nat
  defaultMaxEarnerSeats : Nat
  defaultQualifiedMajorityThreshold : ℚ
  countedVotePoints : Nat
  uncountedVotePoints : Nat
deriving DecidableEq, BEq

/-- The current team registry (`SystemState` holds the teams map; the
timestamp is elided). -/
structure SystemState where
  teams : List (TeamId × Team)
deriving DecidableEq, BEq

/-- The full serialized aggregate (`BudgetSystemState`); `HashMap`s are
embedded as association lists keyed by id. -/
structure BudgetSystemState where
  currentState : SystemState
  proposals : List (Nat × Proposal)
  raffles : List (Nat × Raffle)
  votes : List (Nat × Vote)
  epochs : List (Nat × Epoch)
  currentEpoch : Option Nat
deriving DecidableEq, BEq

/-- The budget system: the aggregate state plus the application
configuration (the ethereum service is external and enters only through
explicit randomness arguments). -/
structure BudgetSystem where
  state : BudgetSystemState
  config : AppConfig
deriving DecidableEq, BEq

/-- Updates the entry at an existing key of an association map, mirroring a
mutation through `HashMap::get_mut`. -/
def mset {α : Type} (m : List (Nat × α)) (k : Nat) (v : α) : List (Nat × α) :=
  m.map fun kv => if kv.1 = k then (k, v) else kv

/-- Inserts a fresh-keyed entry into an association map, mirroring
`HashMap::insert` with a freshly generated id. -/
def madd {α : Type} (m : List (Nat × α)) (k : Nat) (v : α) : List (Nat × α) :=
  m ++ [(k, v)]

/-- Name lookup over the team registry (`get_team_id_by_name`). -/
def BudgetSystem.getTeamIdByName (sys : BudgetSystem) (name : String) :
    Option TeamId :=
  (sys.state.currentState.teams.find? (fun kv => kv.2.name == name)).map
    Prod.fst

/-- Name lookup over the epochs (`get_epoch_id_by_name`). -/
def BudgetSystem.getEpochIdByName (sys : BudgetSystem) (name : String) :
    Option Nat :=
  (sys.state.epochs.find? (fun kv => kv.2.name == name)).map Prod.fst

/-- Name lookup over the proposals (`get_proposal_id_by_name`, matching by
title). -/
def BudgetSystem.getProposalIdByName (sys : BudgetSystem) (name : String) :
    Option Nat :=
  (sys.state.proposals.find? (fun kv => kv.2.title == name)).map Prod.fst

/-- Embeds `create_formal_vote` from `main.rs`: the proposal must exist and
be actionable, the raffle must exist and have a result; the created Formal
vote takes its seat total from the raffle configuration and its threshold and
credit points from the system configuration — the caller-supplied
`threshold` argument is never read.  `newVoteId` stands in for
`Uuid::new_v4`. -/
def BudgetSystem.createFormalVote (sys : BudgetSystem) (proposalId raffleId : Nat)
    (threshold : Option ℚ) (newVoteId : Nat) :
    BudgetSystem × Except String Nat :=
  match sys.state.proposals.lookup proposalId with
  | none => (sys, Except.error "Proposal not found")
  | some proposal =>
    if !proposal.isActionable then
      (sys, Except.error "Proposal is not in a votable state")
    else
      match sys.state.raffles.lookup raffleId with
      | none => (sys, Except.error "Raffle not found")
      | some raffle =>
        if raffle.result.isNone then
          (sys, Except.error "Raffle results have not been generated")
        else
          let voteType := VoteType.Formal raffleId
            raffle.config.totalCountedSeats
            sys.config.defaultQualifiedMajorityThreshold
            sys.config.countedVotePoints
            sys.config.uncountedVotePoints
          let vote := Vote.new newVoteId proposalId proposal.epochId voteType false
          ({ sys with state :=
              { sys.state with votes := madd sys.state.votes newVoteId vote } },
            Except.ok newVoteId)

/-- The ballot loop inside `cast_votes`: ballots are applied one at a time to
the vote held by mutable reference; the first failing cast returns early,
leaving the casts already applied in place. -/
def castVotesLoop (v : Vote) (raffleResult : Option RaffleResult) :
    List (TeamId × VoteChoice) → Vote × Option String
  | [] => (v, none)
  | (teamId, choice) :: rest =>
    match v.castVote teamId choice raffleResult with
    | Except.ok v' => castVotesLoop v' raffleResult rest
    | Except.error e => (v, some e)

/-- Embeds `cast_votes` from `main.rs`: the raffle result bound to a Formal
vote is fetched, then each ballot of the batch is cast in order against the
vote held in the state; an error aborts the loop but the casts already
applied remain in the aggregate state. -/
def BudgetSystem.castVotes (sys : BudgetSystem) (voteId : Nat)
    (ballots : List (TeamId × VoteChoice)) : BudgetSystem × Except String Unit :=
  match sys.state.votes.lookup voteId with
  | none => (sys, Except.error "Vote not found")
  | some v =>
    let raffleResult :=
      match v.voteType with
      | VoteType.Formal raffleId _ _ _ _ =>
        (sys.state.raffles.lookup raffleId).bind Raffle.result
      | VoteType.Informal => none
    match castVotesLoop v raffleResult ballots with
    | (v', none) =>
      ({ sys with state :=
          { sys.state with votes := mset sys.state.votes voteId v' } },
        Except.ok ())
    | (v', some e) =>
      ({ sys with state :=
          { sys.state with votes := mset sys.state.votes voteId v' } },
        Except.error e)

/-- Embeds `close_vote` from `main.rs`: an already-closed vote is an error;
otherwise the vote is closed, its result stored, and the pass flag returned
(`false` for Informal results). -/
def BudgetSystem.closeVote (sys : BudgetSystem) (voteId : Nat) :
    BudgetSystem × Except String Bool :=
  match sys.state.votes.lookup voteId with
  | none => (sys, Except.error "Vote not found")
  | some v =>
    if v.status = VoteStatus.Closed then
      (sys, Except.error "Vote is already closed")
    else
      match v.close with
      | Except.error e => (sys, Except.error e)
      | Except.ok v' =>
        let sys' := { sys with state :=
          { sys.state with votes := mset sys.state.votes voteId v' } }
        match v'.result with
        | some (VoteResult.Formal _ _ passed) => (sys', Except.ok passed)
        | some (VoteResult.Informal _) => (sys', Except.ok false)
        | none => (sys', Except.error "Vote result not available")

/-- Embeds `get_proposals_for_epoch` from `main.rs`. -/
def BudgetSystem.getProposalsForEpoch (sys : BudgetSystem) (epochId : Nat) :
    List Proposal :=
  match sys.state.epochs.lookup epochId with
  | some epoch =>
    epoch.associatedProposals.filterMap (fun pid => sys.state.proposals.lookup pid)
  | none => []

/-- The vote associated with a proposal
(`votes.values().find(|v| v.proposal_id() == proposal_id)`). -/
def BudgetSystem.findVoteForProposal (sys : BudgetSystem) (proposalId : Nat) :
    Option Vote :=
  (sys.state.votes.map Prod.snd).find? (fun v => v.proposalId == proposalId)

/-- The points a vote credits to a team: counted credit if the team is in the
counted participation, uncounted credit if in the uncounted participation,
zero otherwise (Informal votes credit nothing). -/
def votePointsFor (v : Vote) (teamId : TeamId) : Nat :=
  match v.voteType, v.participation with
  | VoteType.Formal _ _ _ countedPoints uncountedPoints,
      VoteParticipation.Formal counted uncounted =>
    if counted.contains teamId then countedPoints
    else if uncounted.contains teamId then uncountedPoints
    else 0
  | _, _ => 0

/-- Embeds `calculate_team_points_for_epoch` from `main.rs`: the team's
credited points summed over every vote whose proposal belongs to the epoch. -/
def BudgetSystem.calculateTeamPointsForEpoch (sys : BudgetSystem)
    (teamId : TeamId) (epochId : Nat) : Nat :=
  match sys.state.epochs.lookup epochId with
  | none => 0
  | some epoch =>
    ((epoch.associatedProposals.filterMap sys.findVoteForProposal).map
      (fun v => votePointsFor v teamId)).sum

/-- Embeds `get_total_points_for_epoch` from `main.rs`. -/
def BudgetSystem.getTotalPointsForEpoch (sys : BudgetSystem) (epochId : Nat) :
    Nat :=
  (sys.state.currentState.teams.map
    (fun kv => sys.calculateTeamPointsForEpoch kv.1 epochId)).sum

/-- Embeds `close_epoch` from `main.rs` step by step: resolve the epoch (by
name, else the current epoch); fail when actionable proposals remain,
reporting their count; fail when the epoch is already closed; when a reward
is set, fail on zero total points, else compute every team's percentage
`team_points / total_points * 100` and amount
`reward * (percentage / 100)`; finally mark the epoch Closed, persist the
team rewards, and clear the current-epoch pointer if it pointed here. -/
def BudgetSystem.closeEpoch (sys : BudgetSystem) (epochName : Option String) :
    BudgetSystem × Except String Unit :=
  let epochIdRes : Except String Nat :=
    match epochName with
    | some name =>
      match sys.getEpochIdByName name with
      | some id => Except.ok id
      | none => Except.error ("Epoch not found: " ++ name)
    | none =>
      match sys.state.currentEpoch with
      | some id => Except.ok id
      | none => Except.error "No active epoch"
  match epochIdRes with
  | Except.error e => (sys, Except.error e)
  | Except.ok epochId =>
    let actionableProposals :=
      ((sys.getProposalsForEpoch epochId).filter Proposal.isActionable).length
    if actionableProposals > 0 then
      (sys, Except.error ("Cannot close epoch: " ++ toString actionableProposals
        ++ " actionable proposals remaining"))
    else
      let totalPoints := sys.getTotalPointsForEpoch epochId
      match sys.state.epochs.lookup epochId with
      | none => (sys, Except.error "Epoch not found")
      | some epoch =>
        if epoch.isClosed then
          (sys, Except.error "Epoch is already closed")
        else
          let teamRewardsRes : Except String (List (TeamId × TeamReward)) :=
            match epoch.reward with
            | none => Except.ok []
            | some reward =>
              if totalPoints = 0 then
                Except.error "No points earned in this epoch"
              else
                Except.ok (sys.state.currentState.teams.map fun kv =>
                  let teamPoints := sys.calculateTeamPointsForEpoch kv.1 epochId
                  let percentage : ℚ :=
                    (teamPoints : ℚ) / (totalPoints : ℚ) * 100
                  let amount : ℚ := reward.amount * (percentage / 100)
                  (kv.1, ⟨percentage, amount⟩))
          match teamRewardsRes with
          | Except.error e => (sys, Except.error e)
          | Except.ok teamRewards =>
            let epoch' := teamRewards.foldl
              (fun e kv => e.setTeamReward kv.1 kv.2.percentage kv.2.amount)
              { epoch with status := EpochStatus.Closed }
            let sys' := { sys with state := { sys.state with
              epochs := mset sys.state.epochs epochId epoch'
              currentEpoch :=
                if sys.state.currentEpoch = some epochId then none
                else sys.state.currentEpoch } }
            (sys', Except.ok ())

/-- Embeds `import_predefined_raffle` from `main.rs`: the named proposal and
an active epoch are required; team names are resolved (unknown names drop
out); the counted-team count must equal `total_counted_seats` and
`max_earner_seats` must not exceed `total_counted_seats`; only then is a
historical raffle built and stored with the given counted/uncounted result.
`newRaffleId` stands in for `Uuid::new_v4`. -/
def BudgetSystem.importPredefinedRaffle (sys : BudgetSystem)
    (proposalName : String) (countedTeams uncountedTeams : List String)
    (totalCountedSeats maxEarnerSeats : Nat) (newRaffleId : Nat) :
    BudgetSystem × Except String Nat :=
  match sys.getProposalIdByName proposalName with
  | none => (sys, Except.error ("Proposal not found: " ++ proposalName))
  | some proposalId =>
    match sys.state.currentEpoch with
    | none => (sys, Except.error "No active epoch")
    | some epochId =>
      let countedTeamIds := countedTeams.filterMap sys.getTeamIdByName
      let uncountedTeamIds := uncountedTeams.filterMap sys.getTeamIdByName
      if countedTeamIds.length ≠ totalCountedSeats then
        (sys, Except.error
          "Mismatch between specified total_counted_seats and actual number of counted teams")
      else if maxEarnerSeats > totalCountedSeats then
        (sys, Except.error
          "max_earner_seats cannot be greater than total_counted_seats")
      else
        let raffleConfig : RaffleConfig :=
          { proposalId := proposalId
            epochId := epochId
            totalCountedSeats := totalCountedSeats
            maxEarnerSeats := maxEarnerSeats
            initiationBlock := some 0
            randomnessBlock := some 0
            blockRandomness := "N/A"
            excludedTeams := []
            customTeamOrder := some (countedTeamIds ++ uncountedTeamIds)
            isHistorical := true }
        match Raffle.new newRaffleId raffleConfig
            (sys.state.currentState.teams.map Prod.snd) with
        | Except.error e => (sys, Except.error e)
        | Except.ok raffle =>
          let raffle' := raffle.setResult
            (RaffleResult.new countedTeamIds uncountedTeamIds)
          ({ sys with state := { sys.state with
              raffles := madd sys.state.raffles newRaffleId raffle' } },
            Except.ok newRaffleId)

/-- Embeds `import_historical_raffle` from `main.rs` (the randomness string
returned by the ethereum service is passed in): seat counts default from the
configuration; `max_earner_seats > total_counted_seats` is rejected; then a
historical raffle is built, scored, selected and stored.  `newRaffleId`
stands in for `Uuid::new_v4`. -/
def BudgetSystem.importHistoricalRaffle (sys : BudgetSystem)
    (proposalName : String) (initiationBlock randomnessBlock : Nat)
    (randomness : String) (teamOrder : Option (List String))
    (excludedTeams : Option (List String))
    (totalCountedSeats maxEarnerSeats : Option Nat) (newRaffleId : Nat) :
    BudgetSystem × Except String Nat :=
  match sys.getProposalIdByName proposalName with
  | none => (sys, Except.error ("Proposal not found: " ++ proposalName))
  | some proposalId =>
    match sys.state.currentEpoch with
    | none => (sys, Except.error "No active epoch")
    | some epochId =>
      let customTeamOrder :=
        teamOrder.map (fun order => order.filterMap sys.getTeamIdByName)
      let excludedTeamIds :=
        (excludedTeams.map (fun names => names.filterMap sys.getTeamIdByName)).getD []
      let total := totalCountedSeats.getD sys.config.defaultTotalCountedSeats
      let maxEarner := maxEarnerSeats.getD sys.config.defaultMaxEarnerSeats
      if maxEarner > total then
        (sys, Except.error
          "max_earner_seats cannot be greater than total_counted_seats")
      else
        let raffleConfig : RaffleConfig :=
          { proposalId := proposalId
            epochId := epochId
            totalCountedSeats := total
            maxEarnerSeats := maxEarner
            initiationBlock := some initiationBlock
            randomnessBlock := some randomnessBlock
            blockRandomness := randomness
            excludedTeams := excludedTeamIds
            customTeamOrder := customTeamOrder
            isHistorical := true }
        match Raffle.new newRaffleId raffleConfig
            (sys.state.currentState.teams.map Prod.snd) with
        | Except.error e => (sys, Except.error e)
        | Except.ok raffle =>
          let raffle' := raffle.generateTicketScores.selectDecidingTeams
          ({ sys with state := { sys.state with
              raffles := madd sys.state.raffles newRaffleId raffle' } },
            Except.ok newRaffleId)

/-! Concrete sample states used to witness the theorems below. -/

/-- A sample application configuration matching the defaults exercised by the
repository's own test configuration (7 counted seats, 5 earner seats,
0.7 threshold, 5 counted points, 2 uncounted points). -/
def cfgSample : AppConfig := ⟨7, 5, 7/10, 5, 2⟩

/-- A sample open Formal vote with two counted participants and one uncounted
participant having cast ballots. -/
def c1Vote : Vote :=
  { id := 31, proposalId := 21, epochId := 10
    voteType := VoteType.Formal 40 3 (7/10) 5 2
    status := VoteStatus.Open
    participation := VoteParticipation.Formal [1, 2] [4]
    ballots := [(1, VoteChoice.Yes), (2, VoteChoice.No), (4, VoteChoice.Yes)]
    result := none
    isHistorical := false }

/-- A sample system holding only `c1Vote`. -/
def c1Sys : BudgetSystem :=
  { state :=
      { currentState := ⟨[]⟩, proposals := [], raffles := []
        votes := [(31, c1Vote)], epochs := [], currentEpoch := none }
    config := cfgSample }

/-- A fresh Formal vote bound to raffle 40 (one counted seat). -/
def c4Vote : Vote :=
  { id := 30, proposalId := 20, epochId := 10
    voteType := VoteType.Formal 40 1 1 5 2
    status := VoteStatus.Open
    participation := VoteParticipation.Formal [] []
    ballots := []
    result := none
    isHistorical := false }

/-- The raffle configuration behind `c4Raffle`. -/
def c4RaffleConfig : RaffleConfig :=
  { proposalId := 20, epochId := 10, totalCountedSeats := 1, maxEarnerSeats := 1
    initiationBlock := some 0, randomnessBlock := some 0, blockRandomness := "r"
    excludedTeams := [], customTeamOrder := none, isHistorical := false }

/-- A completed raffle whose counted set is team 1 only. -/
def c4Raffle : Raffle :=
  { id := 40, config := c4RaffleConfig, teamSnapshots := [], tickets := []
    result := some ⟨[1], []⟩ }

/-- A sample system with the fresh vote `c4Vote` and the raffle `c4Raffle`:
team 1 is eligible (counted), team 2 is not. -/
def c4Sys : BudgetSystem :=
  { state :=
      { currentState := ⟨[]⟩, proposals := [], raffles := [(40, c4Raffle)]
        votes := [(30, c4Vote)], epochs := [], currentEpoch := none }
    config := cfgSample }

/-- The vote obtained from `c4Vote` after team 1 cast a Yes ballot. -/
def c6V1 : Vote :=
  { c4Vote with
    participation := VoteParticipation.Formal [1] []
    ballots := [(1, VoteChoice.Yes)] }

/-- Sample teams for a raffle: an Earner with trailing revenue and a
Supporter. -/
def c3Teams : List Team :=
  [⟨1, "A", "ra", TeamStatus.Earner [1000, 2000, 3000]⟩,
   ⟨2, "B", "rb", TeamStatus.Supporter⟩]

/-- A raffle configuration with one counted seat and one earner seat. -/
def c3Config : RaffleConfig :=
  { proposalId := 20, epochId := 10, totalCountedSeats := 1, maxEarnerSeats := 1
    initiationBlock := some 0, randomnessBlock := some 0
    blockRandomness := "seed", excludedTeams := [], customTeamOrder := none
    isHistorical := false }

/-- A prepared raffle over `c3Teams` with tickets allocated but not yet
scored. -/
def c3Raffle : Raffle :=
  { id := 41, config := c3Config, teamSnapshots := c3Teams
    tickets := allocateTickets c3Teams 0, result := none }

/-- An open, unresolved, unpaid (hence actionable) proposal. -/
def c8Proposal : Proposal :=
  { id := 20, epochId := 10, title := "P8", url := none
    status := ProposalStatus.Open, resolution := none
    budgetRequestDetails := none, isHistorical := false }

/-- An active epoch holding the actionable proposal `c8Proposal`. -/
def c8Epoch : Epoch :=
  { id := 10, name := "E8", status := EpochStatus.Active, reward := none
    associatedProposals := [20], teamRewards := [] }

/-- A sample system whose current epoch still has one actionable proposal. -/
def c8Sys : BudgetSystem :=
  { state :=
      { currentState := ⟨[]⟩, proposals := [(20, c8Proposal)], raffles := []
        votes := [], epochs := [(10, c8Epoch)], currentEpoch := some 10 }
    config := cfgSample }

/-- An active epoch with no reward pool set and no proposals. -/
def c5Epoch : Epoch :=
  { id := 10, name := "E5", status := EpochStatus.Active, reward := none
    associatedProposals := [], teamRewards := [] }

/-- A sample system whose current epoch has no reward pool set. -/
def c5Sys : BudgetSystem :=
  { state :=
      { currentState := ⟨[]⟩, proposals := [], raffles := [], votes := []
        epochs := [(10, c5Epoch)], currentEpoch := some 10 }
    config := cfgSample }

/-- An active epoch with a reward pool set but (in `c5bSys`) no team points
earned. -/
def c5bEpoch : Epoch :=
  { id := 10, name := "E5b", status := EpochStatus.Active
    reward := some ⟨"USDC", 100⟩, associatedProposals := [], teamRewards := [] }

/-- A sample system with a reward pool set and zero total points. -/
def c5bSys : BudgetSystem :=
  { state :=
      { currentState := ⟨[]⟩, proposals := [], raffles := [], votes := []
        epochs := [(10, c5bEpoch)], currentEpoch := some 10 }
    config := cfgSample }

/-- Sample team A (a Supporter). -/
def c2TeamA : Team := ⟨1, "Team A", "ra", TeamStatus.Supporter⟩

/-- Sample team B (a Supporter). -/
def c2TeamB : Team := ⟨2, "Team B", "rb", TeamStatus.Supporter⟩

/-- A closed Formal vote crediting 30 points to team 1 (counted) and 70
points to team 2 (uncounted). -/
def c2Vote : Vote :=
  { id := 30, proposalId := 20, epochId := 10
    voteType := VoteType.Formal 40 2 1 30 70
    status := VoteStatus.Closed
    participation := VoteParticipation.Formal [1] [2]
    ballots := []
    result := none
    isHistorical := false }

/-- A resolved (hence not actionable) proposal. -/
def c2Proposal : Proposal :=
  { id := 20, epochId := 10, title := "P2", url := none
    status := ProposalStatus.Closed, resolution := some Resolution.Approved
    budgetRequestDetails := none, isHistorical := false }

/-- An active epoch with a 1000 USDC reward pool over proposal 20. -/
def c2Epoch : Epoch :=
  { id := 10, name := "E2", status := EpochStatus.Active
    reward := some ⟨"USDC", 1000⟩, associatedProposals := [20]
    teamRewards := [] }

/-- The reward-scenario system: a 1000 USDC pool, team 1 earning 30 points
and team 2 earning 70 points (the only participants). -/
def c2Sys : BudgetSystem :=
  { state :=
      { currentState := ⟨[(1, c2TeamA), (2, c2TeamB)]⟩
        proposals := [(20, c2Proposal)], raffles := [], votes := [(30, c2Vote)]
        epochs := [(10, c2Epoch)], currentEpoch := some 10 }
    config := cfgSample }

/-- An open proposal used by the raffle import sample. -/
def c9Proposal : Proposal :=
  { id := 20, epochId := 10, title := "P9", url := none
    status := ProposalStatus.Open, resolution := none
    budgetRequestDetails := none, isHistorical := false }

/-- The active epoch of the raffle import sample. -/
def c9Epoch : Epoch :=
  { id := 10, name := "E9", status := EpochStatus.Active, reward := none
    associatedProposals := [20], teamRewards := [] }

/-- A sample system against which predefined raffles are imported. -/
def c9Sys : BudgetSystem :=
  { state :=
      { currentState := ⟨[(1, c2TeamA), (2, c2TeamB)]⟩
        proposals := [(20, c9Proposal)], raffles := [], votes := []
        epochs := [(10, c9Epoch)], currentEpoch := some 10 }
    config := cfgSample }

/-- An open, actionable proposal for the formal-vote creation sample. -/
def c10Proposal : Proposal :=
  { id := 20, epochId := 10, title := "P10", url := none
    status := ProposalStatus.Open, resolution := none
    budgetRequestDetails := none, isHistorical := false }

/-- A sample system with an actionable proposal and a completed raffle, ready
for `create_formal_vote`. -/
def c10Sys : BudgetSystem :=
  { state :=
      { currentState := ⟨[]⟩, proposals := [(20, c10Proposal)]
        raffles := [(40, c4Raffle)], votes := [], epochs := []
        currentEpoch := none }
    config := cfgSample }

/-! Helper lemmas. -/

theorem addParticipant_addParticipant (l : List TeamId) (t : TeamId) :
    addParticipant (addParticipant l t) t = addParticipant l t := by
  unfold addParticipant
  by_cases h : t ∈ l
  · simp [h]
  · simp [h]

theorem updateBallot_updateBallot (bs : List (TeamId × VoteChoice))
    (t : TeamId) (c1 c2 : VoteChoice) :
    updateBallot (updateBallot bs t c1) t c2 = updateBallot bs t c2 := by
  simp [updateBallot, List.filter_append, List.filter_filter]

/-- C6.  For every vote and every team, casting a ballot twice for the same
team (possibly with different choices) yields exactly the same vote state —
participation, ballots and hence tallies — as casting only the second ballot
once: re-casting overwrites the prior ballot and never double-counts. -/
theorem c6_recast_overwrites (v : Vote) (t : TeamId) (c1 c2 : VoteChoice)
    (rr : Option RaffleResult) (v1 : Vote)
    (h : v.castVote t c1 rr = Except.ok v1) :
    v1.castVote t c2 rr = v.castVote t c2 rr := by
  obtain ⟨id, pid, eid, vt, st, part, bs, res, hist⟩ := v
  cases st with
  | Closed => simp [Vote.castVote] at h
  | Open =>
    cases vt with
    | Formal rid seats th cp up =>
      cases part with
      | Formal counted uncounted =>
        cases rr with
        | none => simp [Vote.castVote] at h
        | some r =>
          by_cases hc : t ∈ r.counted
          · simp only [Vote.castVote, List.elem_eq_mem, decide_eq_true_eq,
              hc, if_true, reduceCtorEq, reduceIte, Except.ok.injEq] at h
            subst h
            simp [Vote.castVote, hc, addParticipant_addParticipant,
              updateBallot_updateBallot]
          · by_cases hu : t ∈ r.uncounted
            · simp only [Vote.castVote, List.elem_eq_mem, decide_eq_true_eq,
                hc, hu, if_true, if_false, reduceCtorEq, reduceIte,
                Except.ok.injEq] at h
              subst h
              simp [Vote.castVote, hc, hu, addParticipant_addParticipant,
                updateBallot_updateBallot]
            · simp [Vote.castVote, hc, hu] at h
      | Informal ps => simp [Vote.castVote] at h
    | Informal =>
      cases part with
      | Formal counted uncounted => simp [Vote.castVote] at h
      | Informal ps =>
        simp only [Vote.castVote, reduceCtorEq, reduceIte,
          Except.ok.injEq] at h
        subst h
        simp [Vote.castVote, addParticipant_addParticipant,
          updateBallot_updateBallot]

/-- C6 witness: on the concrete fresh vote `c4Vote`, casting for team 1 a Yes
and then a No equals casting the No alone. -/
theorem c6_recast_overwrites_witness :
    c4Vote.castVote 1 VoteChoice.Yes (some ⟨[1], []⟩) = Except.ok c6V1 ∧
    c6V1.castVote 1 VoteChoice.No (some ⟨[1], []⟩)
      = c4Vote.castVote 1 VoteChoice.No (some ⟨[1], []⟩) :=
  ⟨rfl, c6_recast_overwrites c4Vote 1 VoteChoice.Yes VoteChoice.No
    (some ⟨[1], []⟩) c6V1 rfl⟩

theorem tallyFor_append_of_not_mem (bs extra : List (TeamId × VoteChoice))
    (counted : List TeamId) (hex : ∀ b ∈ extra, b.1 ∉ counted) :
    tallyFor (bs ++ extra) counted = tallyFor bs counted := by
  have h1 : ∀ c : VoteChoice,
      extra.filter (fun b => counted.contains b.1 && (b.2 == c)) = [] := by
    intro c
    refine List.filter_eq_nil_iff.mpr ?_
    intro b hb
    simp [List.elem_eq_mem, hex b hb]
  simp [tallyFor, countChoice, List.filter_append, h1 VoteChoice.Yes,
    h1 VoteChoice.No]
  refine ⟨?_, ?_⟩ <;> intro a b hab hmem <;> exact absurd hmem (hex (a, b) hab)

/-- C1.  For every Formal vote closed through `close_vote`, the returned pass
flag equals `counted.yes / (counted.yes + counted.no) ≥ threshold` computed
over the counted-set ballots (an exactly equal share passes), and is `false`
when `counted.yes + counted.no = 0`; ballots of teams outside the counted
set never change the counted tally, hence never affect `passed`. -/
theorem c1_formal_close_passed (sys : BudgetSystem) (voteId : Nat) (v : Vote)
    (rid seats cp up : Nat) (th : ℚ) (counted uncounted : List TeamId)
    (hv : sys.state.votes.lookup voteId = some v)
    (hopen : v.status = VoteStatus.Open)
    (htype : v.voteType = VoteType.Formal rid seats th cp up)
    (hpart : v.participation = VoteParticipation.Formal counted uncounted) :
    (sys.closeVote voteId).2 =
      Except.ok
        (if (tallyFor v.ballots counted).yes + (tallyFor v.ballots counted).no = 0
         then false
         else decide (th ≤ ((tallyFor v.ballots counted).yes : ℚ) /
            (((tallyFor v.ballots counted).yes : ℚ) +
              ((tallyFor v.ballots counted).no : ℚ))))
    ∧ ∀ extra : List (TeamId × VoteChoice), (∀ b ∈ extra, b.1 ∉ counted) →
        tallyFor (v.ballots ++ extra) counted = tallyFor v.ballots counted := by
  constructor
  · simp only [BudgetSystem.closeVote, hv, Vote.close, hopen, htype, hpart,
      reduceCtorEq, reduceIte, formalPassed]
  · intro extra hex
    exact tallyFor_append_of_not_mem v.ballots extra counted hex

/-- C1 witness: the concrete system `c1Sys` satisfies the hypotheses and the
conclusions of the tally theorem at vote 31. -/
theorem c1_formal_close_passed_witness :
    c1Sys.state.votes.lookup 31 = some c1Vote ∧
    c1Vote.status = VoteStatus.Open ∧
    c1Vote.voteType = VoteType.Formal 40 3 (7/10) 5 2 ∧
    c1Vote.participation = VoteParticipation.Formal [1, 2] [4] ∧
    ((c1Sys.closeVote 31).2 =
      Except.ok
        (if (tallyFor c1Vote.ballots [1, 2]).yes + (tallyFor c1Vote.ballots [1, 2]).no = 0
         then false
         else decide ((7 : ℚ)/10 ≤ ((tallyFor c1Vote.ballots [1, 2]).yes : ℚ) /
            (((tallyFor c1Vote.ballots [1, 2]).yes : ℚ) +
              ((tallyFor c1Vote.ballots [1, 2]).no : ℚ))))
    ∧ ∀ extra : List (TeamId × VoteChoice), (∀ b ∈ extra, b.1 ∉ ([1, 2] : List TeamId)) →
        tallyFor (c1Vote.ballots ++ extra) [1, 2] = tallyFor c1Vote.ballots [1, 2]) :=
  ⟨rfl, rfl, rfl, rfl,
    c1_formal_close_passed c1Sys 31 c1Vote 40 3 5 2 (7/10) [1, 2] [4]
      rfl rfl rfl rfl⟩

theorem length_filter_mem_of_nodup (L S : List TeamId) (hL : L.Nodup)
    (hS : S.Nodup) (hsub : ∀ x ∈ S, x ∈ L) :
    (L.filter (fun t => S.contains t)).length = S.length := by
  have hperm : (L.filter (fun t => S.contains t)).Perm S := by
    refine (List.perm_ext_iff_of_nodup (hL.filter _) hS).mpr ?_
    intro a
    simp only [List.mem_filter, List.elem_eq_mem, decide_eq_true_eq]
    exact ⟨fun h => h.2, fun h => ⟨hsub a h, h⟩⟩
  exact hperm.length_eq

theorem length_filter_not_mem_of_nodup (L S : List TeamId) (hL : L.Nodup)
    (hS : S.Nodup) (hsub : ∀ x ∈ S, x ∈ L) :
    (L.filter (fun t => !(S.contains t))).length = L.length - S.length := by
  have h1 := length_filter_mem_of_nodup L S hL hS hsub
  have h2 := List.length_eq_length_filter_add (l := L) (fun t => S.contains t)
  omega

theorem selection_facts (L CE rest C U : List TeamId) (p : TeamId → Bool)
    (m T : Nat) (hL : L.Nodup) (hmT : m ≤ T)
    (hCE : CE = (L.filter p).take m)
    (hrest : rest = L.filter fun t => !(CE.contains t))
    (hC : C = CE ++ rest.take (T - CE.length))
    (hU : U = L.filter fun t => !(C.contains t)) :
    C.Disjoint U ∧ C.length + U.length = L.length ∧
      C.length = min T L.length := by
  have hCEnd : CE.Nodup := by
    rw [hCE]; exact (List.take_sublist _ _).nodup (hL.filter p)
  have hCEsubL : ∀ x ∈ CE, x ∈ L := by
    rw [hCE]
    exact fun x hx =>
      (List.filter_sublist L).subset ((List.take_sublist _ _).subset hx)
  have hCElen_le_m : CE.length ≤ m := by
    rw [hCE]; exact List.length_take_le _ _
  have hCEle_L : CE.length ≤ L.length := by
    rw [hCE]
    exact ((List.take_sublist _ _).trans (List.filter_sublist L)).length_le
  have hrest_len : rest.length = L.length - CE.length := by
    rw [hrest]; exact length_filter_not_mem_of_nodup L CE hL hCEnd hCEsubL
  have hrest_nd : rest.Nodup := by rw [hrest]; exact hL.filter _
  have htake_nd : (rest.take (T - CE.length)).Nodup :=
    (List.take_sublist _ _).nodup hrest_nd
  have hrest_not_CE : ∀ x ∈ rest, x ∉ CE := by
    rw [hrest]
    intro x hx
    have := (List.mem_filter.mp hx).2
    simpa [List.elem_eq_mem] using this
  have hdisjCE : CE.Disjoint (rest.take (T - CE.length)) := by
    intro a haCE hatake
    exact hrest_not_CE a ((List.take_sublist _ _).subset hatake) haCE
  have hCnd : C.Nodup := by
    rw [hC]; exact List.Nodup.append hCEnd htake_nd hdisjCE
  have hCsubL : ∀ x ∈ C, x ∈ L := by
    rw [hC]
    intro x hx
    rcases List.mem_append.mp hx with h | h
    · exact hCEsubL x h
    · have hxr : x ∈ rest := (List.take_sublist _ _).subset h
      rw [hrest] at hxr
      exact (List.filter_sublist L).subset hxr
  have hClen : C.length = CE.length + min (T - CE.length) rest.length := by
    rw [hC]
    simp [List.length_append, List.length_take]
  have hUlen : U.length = L.length - C.length := by
    rw [hU]; exact length_filter_not_mem_of_nodup L C hL hCnd hCsubL
  refine ⟨?_, ?_, ?_⟩
  · intro a haC haU
    rw [hU] at haU
    have := (List.mem_filter.mp haU).2
    simp only [List.elem_eq_mem, Bool.not_eq_true', decide_eq_false_iff_not] at this
    exact this haC
  · omega
  · omega

/-- C3.  For every raffle over a duplicate-free, non-empty snapshot of
eligible teams whose configuration satisfies
`max_earner_seats ≤ total_counted_seats`, the selected counted and uncounted
sequences are disjoint, their lengths sum to the number of eligible teams,
and `counted.length = min total_counted_seats (number of eligible teams)`. -/
theorem c3_selection_partition (r : Raffle)
    (hnd : (r.teamSnapshots.map Team.id).Nodup)
    (_hne : r.teamSnapshots ≠ [])
    (hseats : r.config.maxEarnerSeats ≤ r.config.totalCountedSeats) :
    ∃ res : RaffleResult, r.selectDecidingTeams.result = some res
      ∧ res.counted.Disjoint res.uncounted
      ∧ res.counted.length + res.uncounted.length = r.teamSnapshots.length
      ∧ res.counted.length
          = min r.config.totalCountedSeats r.teamSnapshots.length := by
  have hperm : r.rankedTeamIds.Perm (r.teamSnapshots.map Team.id) :=
    (List.perm_insertionSort _ _).map Team.id
  have hnd' : r.rankedTeamIds.Nodup := hperm.nodup_iff.mpr hnd
  have hlen : r.rankedTeamIds.length = r.teamSnapshots.length := by
    simpa using hperm.length_eq
  obtain ⟨hdis, hsum, hcnt⟩ := selection_facts r.rankedTeamIds
    ((r.rankedTeamIds.filter r.isEarnerId).take r.config.maxEarnerSeats)
    (r.rankedTeamIds.filter fun t =>
      !(((r.rankedTeamIds.filter r.isEarnerId).take
          r.config.maxEarnerSeats).contains t))
    (((r.rankedTeamIds.filter r.isEarnerId).take r.config.maxEarnerSeats) ++
      (r.rankedTeamIds.filter fun t =>
        !(((r.rankedTeamIds.filter r.isEarnerId).take
            r.config.maxEarnerSeats).contains t)).take
        (r.config.totalCountedSeats -
          ((r.rankedTeamIds.filter r.isEarnerId).take
            r.config.maxEarnerSeats).length))
    (r.rankedTeamIds.filter fun t =>
      !(((((r.rankedTeamIds.filter r.isEarnerId).take
            r.config.maxEarnerSeats) ++
          (r.rankedTeamIds.filter fun t =>
            !(((r.rankedTeamIds.filter r.isEarnerId).take
                r.config.maxEarnerSeats).contains t)).take
            (r.config.totalCountedSeats -
              ((r.rankedTeamIds.filter r.isEarnerId).take
                r.config.maxEarnerSeats).length))).contains t))
    r.isEarnerId r.config.maxEarnerSeats r.config.totalCountedSeats
    hnd' hseats rfl rfl rfl rfl
  refine ⟨⟨_, _⟩, rfl, hdis, ?_, ?_⟩
  · dsimp only [Raffle.computeSelection]
    rw [← hlen]
    exact hsum
  · dsimp only [Raffle.computeSelection]
    rw [← hlen]
    exact hcnt

/-- C3 witness: the concrete raffle `c3Raffle` (two eligible teams, one
counted seat) satisfies the hypotheses and conclusion of the partition
theorem. -/
theorem c3_selection_partition_witness :
    (c3Raffle.teamSnapshots.map Team.id).Nodup ∧
    c3Raffle.teamSnapshots ≠ [] ∧
    c3Raffle.config.maxEarnerSeats ≤ c3Raffle.config.totalCountedSeats ∧
    (∃ res : RaffleResult, c3Raffle.selectDecidingTeams.result = some res
      ∧ res.counted.Disjoint res.uncounted
      ∧ res.counted.length + res.uncounted.length
          = c3Raffle.teamSnapshots.length
      ∧ res.counted.length
          = min c3Raffle.config.totalCountedSeats
              c3Raffle.teamSnapshots.length) :=
  ⟨by decide, by decide, by decide,
    c3_selection_partition c3Raffle (by decide) (by decide) (by decide)⟩

/-- C7.  Ticket scoring and seat selection are deterministic: finalizing two
raffles that share the same configuration, team snapshot and ticket
allocation with the same randomness yields identical ticket scores and an
identical counted/uncounted selection. -/
theorem c7_finalize_deterministic (r1 r2 : Raffle)
    (initiationBlock randomnessBlock : Nat) (randomness : String)
    (hcfg : r1.config = r2.config)
    (hsnap : r1.teamSnapshots = r2.teamSnapshots)
    (htick : r1.tickets = r2.tickets) :
    (r1.finalize initiationBlock randomnessBlock randomness).tickets
      = (r2.finalize initiationBlock randomnessBlock randomness).tickets
    ∧ (r1.finalize initiationBlock randomnessBlock randomness).result
      = (r2.finalize initiationBlock randomnessBlock randomness).result := by
  obtain ⟨id1, c1, s1, t1, res1⟩ := r1
  obtain ⟨id2, c2, s2, t2, res2⟩ := r2
  cases hcfg
  cases hsnap
  cases htick
  exact ⟨rfl, rfl⟩

/-- C7 witness: finalizing the concrete raffle `c3Raffle` twice with the same
randomness gives identical scores and selection. -/
theorem c7_finalize_deterministic_witness :
    c3Raffle.config = c3Raffle.config ∧
    c3Raffle.teamSnapshots = c3Raffle.teamSnapshots ∧
    c3Raffle.tickets = c3Raffle.tickets ∧
    ((c3Raffle.finalize 100 110 "0xabc").tickets
        = (c3Raffle.finalize 100 110 "0xabc").tickets
      ∧ (c3Raffle.finalize 100 110 "0xabc").result
        = (c3Raffle.finalize 100 110 "0xabc").result) :=
  ⟨rfl, rfl, rfl,
    c7_finalize_deterministic c3Raffle c3Raffle 100 110 "0xabc" rfl rfl rfl⟩

/-- C10.  `create_formal_vote` never reads its `threshold` argument: any two
threshold arguments produce identical outcomes, and on success the created
vote carries the configured default qualified-majority threshold and the
configured counted/uncounted point values and the raffle's seat total. -/
theorem c10_threshold_argument_ignored (sys : BudgetSystem)
    (pid rid newId : Nat) (th : Option ℚ) :
    (∀ th' : Option ℚ,
      sys.createFormalVote pid rid th' newId
        = sys.createFormalVote pid rid th newId)
    ∧ (∀ (p : Proposal) (r : Raffle),
        sys.state.proposals.lookup pid = some p →
        p.isActionable = true →
        sys.state.raffles.lookup rid = some r →
        r.result.isNone = false →
        sys.state.votes.lookup newId = none →
        (sys.createFormalVote pid rid th newId).2 = Except.ok newId
        ∧ ((sys.createFormalVote pid rid th newId).1.state.votes.lookup newId)
            = some (Vote.new newId pid p.epochId
                (VoteType.Formal rid r.config.totalCountedSeats
                  sys.config.defaultQualifiedMajorityThreshold
                  sys.config.countedVotePoints sys.config.uncountedVotePoints)
                false)) := by
  constructor
  · intro th'
    rfl
  · intro p r hp hact hr hres hfresh
    constructor
    · simp [BudgetSystem.createFormalVote, hp, hact, hr, hres]
    · simp [BudgetSystem.createFormalVote, hp, hact, hr, hres, madd,
        List.lookup_append, hfresh]

/-- C10 witness: on the concrete system `c10Sys`, creating a formal vote with
a caller-supplied threshold of 9/10 stores a vote carrying the configured
default threshold 7/10. -/
theorem c10_threshold_argument_ignored_witness :
    c10Sys.state.proposals.lookup 20 = some c10Proposal ∧
    c10Proposal.isActionable = true ∧
    c10Sys.state.raffles.lookup 40 = some c4Raffle ∧
    c4Raffle.result.isNone = false ∧
    c10Sys.state.votes.lookup 60 = none ∧
    ((c10Sys.createFormalVote 20 40 (some (9/10)) 60).2 = Except.ok 60
      ∧ ((c10Sys.createFormalVote 20 40 (some (9/10)) 60).1.state.votes.lookup 60)
          = some (Vote.new 60 20 c10Proposal.epochId
              (VoteType.Formal 40 c4Raffle.config.totalCountedSeats
                c10Sys.config.defaultQualifiedMajorityThreshold
                c10Sys.config.countedVotePoints c10Sys.config.uncountedVotePoints)
              false)) :=
  ⟨rfl, rfl, rfl, rfl, rfl,
    (c10_threshold_argument_ignored c10Sys 20 40 60 (some (9/10))).2
      c10Proposal c4Raffle rfl rfl rfl rfl rfl⟩

/-- C4.  Failing batch cast is not atomic: on the concrete system `c4Sys`,
casting the batch [team 1 Yes, team 2 Yes] fails on the ineligible team 2,
yet team 1's ballot of the same batch remains applied to the vote's
participation and ballots — the failed mutating operation does not leave the
aggregate state unchanged. -/
theorem c4_cast_votes_partial_application :
    (c4Sys.castVotes 30 [(1, VoteChoice.Yes), (2, VoteChoice.Yes)]).2
        = Except.error "Team is not eligible to vote"
    ∧ ((c4Sys.castVotes 30 [(1, VoteChoice.Yes), (2, VoteChoice.Yes)]).1.state.votes.lookup 30).map
        Vote.participation = some (VoteParticipation.Formal [1] [])
    ∧ ((c4Sys.castVotes 30 [(1, VoteChoice.Yes), (2, VoteChoice.Yes)]).1.state.votes.lookup 30).map
        Vote.ballots = some [(1, VoteChoice.Yes)]
    ∧ (c4Sys.state.votes.lookup 30).map Vote.participation
        = some (VoteParticipation.Formal [] [])
    ∧ (c4Sys.state.votes.lookup 30).map Vote.ballots = some [] :=
  ⟨rfl, rfl, rfl, rfl, rfl⟩

/-- C8.  Closing the current epoch while actionable (open, unresolved,
unpaid) proposals remain fails with an error reporting the count of
remaining actionable proposals, and the aggregate state is unchanged. -/
theorem c8_close_epoch_actionable_error (sys : BudgetSystem) (eid n : Nat)
    (hcur : sys.state.currentEpoch = some eid)
    (hn : ((sys.getProposalsForEpoch eid).filter Proposal.isActionable).length = n)
    (hpos : 0 < n) :
    sys.closeEpoch none =
      (sys, Except.error ("Cannot close epoch: " ++ toString n
        ++ " actionable proposals remaining")) := by
  simp only [BudgetSystem.closeEpoch, hcur, hn]
  rw [if_pos hpos]

/-- C8 witness: the concrete system `c8Sys` has exactly one remaining
actionable proposal and closing its current epoch fails with the counting
error while leaving the state unchanged. -/
theorem c8_close_epoch_actionable_error_witness :
    c8Sys.state.currentEpoch = some 10 ∧
    ((c8Sys.getProposalsForEpoch 10).filter Proposal.isActionable).length = 1 ∧
    0 < 1 ∧
    c8Sys.closeEpoch none =
      (c8Sys, Except.error ("Cannot close epoch: " ++ toString 1
        ++ " actionable proposals remaining")) :=
  ⟨rfl, rfl, by decide,
    c8_close_epoch_actionable_error c8Sys 10 1 rfl rfl (by decide)⟩

theorem mset_lookup_self {α : Type} (m : List (Nat × α)) (k : Nat) (v : α)
    (h : (m.lookup k).isSome) : (mset m k v).lookup k = some v := by
  induction m with
  | nil => simp [List.lookup] at h
  | cons kv rest ih =>
    obtain ⟨k', v'⟩ := kv
    by_cases hk : k' = k
    · subst hk
      simp [mset, List.lookup_cons]
    · have hbeq : (k == k') = false := by simp [Ne.symm hk]
      simp only [List.lookup_cons, hbeq] at h
      simp only [mset, List.map_cons, if_neg hk, List.lookup_cons, hbeq]
      exact ih h

theorem lookup_filter_ne {β : Type} (l : List (Nat × β)) (k : Nat) :
    (l.filter fun kv => kv.1 ≠ k).lookup k = none := by
  induction l with
  | nil => rfl
  | cons kv rest ih =>
    obtain ⟨k', v'⟩ := kv
    by_cases hk : k' = k
    · simpa [hk] using ih
    · have hbeq : (k == k') = false := by simp [Ne.symm hk]
      simp only [List.filter_cons]
      rw [if_pos (by simpa using hk)]
      simp only [List.lookup_cons, hbeq]
      exact ih

theorem lookup_filter_ne_other {β : Type} (l : List (Nat × β)) (k t : Nat)
    (h : t ≠ k) :
    (l.filter fun kv => kv.1 ≠ k).lookup t = l.lookup t := by
  induction l with
  | nil => rfl
  | cons kv rest ih =>
    obtain ⟨k', v'⟩ := kv
    by_cases hk : k' = k
    · have hbeq : (t == k') = false := by simp [hk, h]
      simp only [List.filter_cons]
      rw [if_neg (by simpa using hk)]
      simp only [List.lookup_cons, hbeq]
      exact ih
    · simp only [List.filter_cons]
      rw [if_pos (by simpa using hk)]
      simp only [List.lookup_cons]
      cases hbeq : (t == k')
      · exact ih
      · rfl

theorem setTeamReward_lookup_self (e : Epoch) (k : TeamId) (p a : ℚ) :
    (e.setTeamReward k p a).teamRewards.lookup k = some ⟨p, a⟩ := by
  show ((e.teamRewards.filter fun kv : TeamId × TeamReward => kv.1 ≠ k)
      ++ [(k, TeamReward.mk p a)]).lookup k = some (TeamReward.mk p a)
  rw [List.lookup_append, lookup_filter_ne]
  simp [List.lookup_cons]

theorem setTeamReward_lookup_ne (e : Epoch) (k t : TeamId) (p a : ℚ)
    (h : t ≠ k) :
    (e.setTeamReward k p a).teamRewards.lookup t
      = e.teamRewards.lookup t := by
  show ((e.teamRewards.filter fun kv : TeamId × TeamReward => kv.1 ≠ k)
      ++ [(k, TeamReward.mk p a)]).lookup t = e.teamRewards.lookup t
  rw [List.lookup_append, lookup_filter_ne_other _ _ _ h]
  have hbeq : (t == k) = false := by simp [h]
  simp [List.lookup_cons, hbeq]

theorem foldl_setTeamReward_not_mem (f : TeamId → TeamReward) :
    ∀ (keys : List TeamId) (e : Epoch) (t : TeamId), t ∉ keys →
      ((keys.map fun k => (k, f k)).foldl
        (fun acc kv => acc.setTeamReward kv.1 kv.2.percentage kv.2.amount)
        e).teamRewards.lookup t
      = e.teamRewards.lookup t := by
  intro keys
  induction keys with
  | nil => intro e t _; rfl
  | cons k ks ih =>
    intro e t ht
    have h1 : t ≠ k := fun hh => ht (by simp [hh])
    have h2 : t ∉ ks := fun hh => ht (by simp [hh])
    simp only [List.map_cons, List.foldl_cons]
    rw [ih _ t h2, setTeamReward_lookup_ne _ _ _ _ _ h1]

theorem foldl_setTeamReward_lookup (f : TeamId → TeamReward) :
    ∀ (keys : List TeamId) (e : Epoch) (t : TeamId), t ∈ keys →
      ((keys.map fun k => (k, f k)).foldl
        (fun acc kv => acc.setTeamReward kv.1 kv.2.percentage kv.2.amount)
        e).teamRewards.lookup t
      = some (f t) := by
  intro keys
  induction keys with
  | nil => intro e t ht; cases ht
  | cons k ks ih =>
    intro e t ht
    by_cases hks : t ∈ ks
    · simp only [List.map_cons, List.foldl_cons]
      exact ih _ t hks
    · have htk : t = k := by
        rcases List.mem_cons.mp ht with h | h
        · exact h
        · exact absurd h hks
      subst htk
      simp only [List.map_cons, List.foldl_cons]
      rw [foldl_setTeamReward_not_mem f ks _ t hks, setTeamReward_lookup_self]

/-- C5 counterexample: on the concrete system `c5Sys`, whose current epoch
has no reward pool set, `close_epoch` succeeds — it closes the epoch without
distributing any rewards instead of returning an error. -/
theorem c5_close_without_reward_counterexample :
    (c5Sys.closeEpoch none).2 = Except.ok () ∧
    ((c5Sys.closeEpoch none).1.state.epochs.lookup 10).map Epoch.status
      = some EpochStatus.Closed ∧
    ((c5Sys.closeEpoch none).1.state.epochs.lookup 10).map Epoch.teamRewards
      = some [] :=
  ⟨rfl, rfl, rfl⟩

/-- C5 (amended).  When the current epoch passes the actionable-proposals and
not-already-closed checks: if a reward pool is set and the total of team
points is zero, `close_epoch` fails with the no-points error and leaves the
state unchanged; if no reward pool is set, `close_epoch` does not fail — it
closes the epoch without distributing rewards (a non-zero reward pool is not
required). -/
theorem c5_close_epoch_zero_points_error (sys : BudgetSystem) (eid : Nat)
    (e : Epoch)
    (hcur : sys.state.currentEpoch = some eid)
    (hact : ((sys.getProposalsForEpoch eid).filter Proposal.isActionable).length = 0)
    (hlook : sys.state.epochs.lookup eid = some e)
    (hnc : e.isClosed = false) :
    (∀ rp : EpochReward, e.reward = some rp →
      sys.getTotalPointsForEpoch eid = 0 →
      sys.closeEpoch none
        = (sys, Except.error "No points earned in this epoch"))
    ∧ (e.reward = none →
      (sys.closeEpoch none).2 = Except.ok ()
      ∧ ((sys.closeEpoch none).1.state.epochs.lookup eid)
          = some { e with status := EpochStatus.Closed }) := by
  constructor
  · intro rp hrp hT
    simp [BudgetSystem.closeEpoch, hcur, hact, hlook, hnc, hrp, hT]
  · intro hrp
    constructor
    · simp [BudgetSystem.closeEpoch, hcur, hact, hlook, hnc, hrp]
    · simp only [BudgetSystem.closeEpoch, hcur, hact, hlook, hnc, hrp]
      simp only [gt_iff_lt, Nat.lt_irrefl, reduceIte, Bool.false_eq_true,
        List.foldl_nil]
      exact mset_lookup_self _ _ _ (by rw [hlook]; rfl)

/-- C5 witness: the concrete system `c5bSys` has a reward pool set and zero
total points, and closing its epoch fails with the no-points error, leaving
the state unchanged. -/
theorem c5_close_epoch_zero_points_error_witness :
    c5bSys.state.currentEpoch = some 10 ∧
    ((c5bSys.getProposalsForEpoch 10).filter Proposal.isActionable).length = 0 ∧
    c5bSys.state.epochs.lookup 10 = some c5bEpoch ∧
    c5bEpoch.isClosed = false ∧
    c5bEpoch.reward = some ⟨"USDC", 100⟩ ∧
    c5bSys.getTotalPointsForEpoch 10 = 0 ∧
    c5bSys.closeEpoch none
      = (c5bSys, Except.error "No points earned in this epoch") :=
  ⟨rfl, rfl, rfl, rfl, rfl, rfl,
    (c5_close_epoch_zero_points_error c5bSys 10 c5bEpoch rfl rfl rfl rfl).1
      ⟨"USDC", 100⟩ rfl rfl⟩

/-- C2 counterexample: on the concrete reward scenario `c2Sys` (pool of 1000
USDC, team 1 with 30 of the 100 total points), the value persisted as team
1's reward share is the percentage 30 — not `team_points / total_points`,
which is 30/100.  The persisted amounts are 300 and 700 as the scenario
requires. -/
theorem c2_share_is_percentage_counterexample :
    ((c2Sys.closeEpoch none).1.state.epochs.lookup 10).map
        (fun e => (e.teamRewards.lookup 1).map TeamReward.percentage)
      = some (some 30)
    ∧ ((c2Sys.closeEpoch none).1.state.epochs.lookup 10).map
        (fun e => (e.teamRewards.lookup 1).map TeamReward.amount)
      = some (some 300)
    ∧ ((c2Sys.closeEpoch none).1.state.epochs.lookup 10).map
        (fun e => (e.teamRewards.lookup 2).map TeamReward.amount)
      = some (some 700)
    ∧ ¬((30 : ℚ) = 30 / 100) := by
  refine ⟨?_, ?_, ?_, by norm_num⟩ <;>
    · simp [BudgetSystem.closeEpoch, c2Sys, c2Epoch, c2Proposal, c2Vote,
        c2TeamA, c2TeamB, cfgSample, BudgetSystem.getProposalsForEpoch,
        BudgetSystem.getTotalPointsForEpoch,
        BudgetSystem.calculateTeamPointsForEpoch,
        BudgetSystem.findVoteForProposal, votePointsFor, Proposal.isActionable,
        Epoch.isClosed, Epoch.setTeamReward, mset, List.lookup_cons,
        List.filter, List.filterMap, List.find?]
      all_goals norm_num

/-- C2 (amended).  For every epoch closed with a reward pool set and a
non-zero total of team points, each team's persisted reward entry carries the
share as a percentage — `team_points / total_points × 100` — and an amount
equal to `(team_points / total_points) × reward_pool_amount`. -/
theorem c2_close_epoch_reward_shares (sys : BudgetSystem) (eid : Nat)
    (e : Epoch) (rp : EpochReward)
    (hcur : sys.state.currentEpoch = some eid)
    (hact : ((sys.getProposalsForEpoch eid).filter Proposal.isActionable).length = 0)
    (hlook : sys.state.epochs.lookup eid = some e)
    (hnc : e.isClosed = false)
    (hrp : e.reward = some rp)
    (hT : ¬(sys.getTotalPointsForEpoch eid = 0)) :
    (sys.closeEpoch none).2 = Except.ok ()
    ∧ ∀ t, t ∈ sys.state.currentState.teams.map Prod.fst →
        ∃ e', (sys.closeEpoch none).1.state.epochs.lookup eid = some e'
          ∧ e'.teamRewards.lookup t = some
              ⟨(sys.calculateTeamPointsForEpoch t eid : ℚ)
                  / (sys.getTotalPointsForEpoch eid : ℚ) * 100,
                rp.amount * ((sys.calculateTeamPointsForEpoch t eid : ℚ)
                  / (sys.getTotalPointsForEpoch eid : ℚ))⟩ := by
  constructor
  · simp [BudgetSystem.closeEpoch, hcur, hact, hlook, hnc, hrp, hT]
  · intro t ht
    have hmap : (sys.state.currentState.teams.map fun kv =>
          (kv.1, (⟨(sys.calculateTeamPointsForEpoch kv.1 eid : ℚ)
              / (sys.getTotalPointsForEpoch eid : ℚ) * 100,
            rp.amount * ((sys.calculateTeamPointsForEpoch kv.1 eid : ℚ)
              / (sys.getTotalPointsForEpoch eid : ℚ) * 100 / 100)⟩ : TeamReward)))
        = ((sys.state.currentState.teams.map Prod.fst).map fun k =>
            (k, (⟨(sys.calculateTeamPointsForEpoch k eid : ℚ)
                / (sys.getTotalPointsForEpoch eid : ℚ) * 100,
              rp.amount * ((sys.calculateTeamPointsForEpoch k eid : ℚ)
                / (sys.getTotalPointsForEpoch eid : ℚ) * 100 / 100)⟩ : TeamReward))) := by
      rw [List.map_map]
      rfl
    have hfold := foldl_setTeamReward_lookup
      (fun k => (⟨(sys.calculateTeamPointsForEpoch k eid : ℚ)
          / (sys.getTotalPointsForEpoch eid : ℚ) * 100,
        rp.amount * ((sys.calculateTeamPointsForEpoch k eid : ℚ)
          / (sys.getTotalPointsForEpoch eid : ℚ) * 100 / 100)⟩ : TeamReward))
      (sys.state.currentState.teams.map Prod.fst)
      { e with status := EpochStatus.Closed, reward := some rp } t ht
    simp only [] at hfold
    simp only [BudgetSystem.closeEpoch, hcur, hact, hlook, hnc, hrp, hT,
      gt_iff_lt, Nat.lt_irrefl, reduceIte, Bool.false_eq_true, if_false,
      ite_false]
    refine ⟨_, mset_lookup_self _ _ _ (by rw [hlook]; rfl), ?_⟩
    rw [hmap, hfold]
    have h100 : ((100 : ℚ)) ≠ 0 := by norm_num
    rw [mul_div_cancel_right₀ _ h100]

/-- C2 witness: the concrete scenario `c2Sys` (1000 USDC pool, teams with 30
and 70 points) satisfies the hypotheses of the reward-shares theorem, and
team 1's persisted entry matches the theorem's conclusion. -/
theorem c2_close_epoch_reward_shares_witness :
    c2Sys.state.currentEpoch = some 10 ∧
    ((c2Sys.getProposalsForEpoch 10).filter Proposal.isActionable).length = 0 ∧
    c2Sys.state.epochs.lookup 10 = some c2Epoch ∧
    c2Epoch.isClosed = false ∧
    c2Epoch.reward = some ⟨"USDC", 1000⟩ ∧
    ¬(c2Sys.getTotalPointsForEpoch 10 = 0) ∧
    ((c2Sys.closeEpoch none).2 = Except.ok ()
    ∧ ∀ t, t ∈ c2Sys.state.currentState.teams.map Prod.fst →
        ∃ e', (c2Sys.closeEpoch none).1.state.epochs.lookup 10 = some e'
          ∧ e'.teamRewards.lookup t = some
              ⟨(c2Sys.calculateTeamPointsForEpoch t 10 : ℚ)
                  / (c2Sys.getTotalPointsForEpoch 10 : ℚ) * 100,
                (1000 : ℚ) * ((c2Sys.calculateTeamPointsForEpoch t 10 : ℚ)
                  / (c2Sys.getTotalPointsForEpoch 10 : ℚ))⟩) :=
  ⟨rfl, rfl, rfl, rfl, rfl, by decide,
    c2_close_epoch_reward_shares c2Sys 10 c2Epoch ⟨"USDC", 1000⟩
      rfl rfl rfl rfl rfl (by decide)⟩

theorem madd_lookup_fresh {α : Type} (m : List (Nat × α)) (k : Nat) (v : α)
    (h : m.lookup k = none) : (madd m k v).lookup k = some v := by
  simp [madd, List.lookup_append, h, List.lookup_cons]

/-- C9.  The predefined/historical raffle import paths validate before
committing: an error is returned (and no state change happens) whenever the
resolved counted-team count differs from `total_counted_seats` or whenever
`max_earner_seats > total_counted_seats` (for the historical path, after
applying configured defaults); only otherwise is a raffle stored, carrying
exactly the given counted/uncounted result. -/
theorem c9_import_raffle_validation (sys : BudgetSystem) (pname : String)
    (countedTeams uncountedTeams : List String) (seats maxE newId : Nat) :
    ((countedTeams.filterMap sys.getTeamIdByName).length ≠ seats →
      (sys.importPredefinedRaffle pname countedTeams uncountedTeams seats
          maxE newId).1 = sys
      ∧ ∀ rid, (sys.importPredefinedRaffle pname countedTeams uncountedTeams
          seats maxE newId).2 ≠ Except.ok rid)
    ∧ (maxE > seats →
      (sys.importPredefinedRaffle pname countedTeams uncountedTeams seats
          maxE newId).1 = sys
      ∧ ∀ rid, (sys.importPredefinedRaffle pname countedTeams uncountedTeams
          seats maxE newId).2 ≠ Except.ok rid)
    ∧ (∀ pid eid : Nat, sys.getProposalIdByName pname = some pid →
        sys.state.currentEpoch = some eid →
        (countedTeams.filterMap sys.getTeamIdByName).length = seats →
        ¬(maxE > seats) →
        sys.state.raffles.lookup newId = none →
        (sys.importPredefinedRaffle pname countedTeams uncountedTeams seats
            maxE newId).2 = Except.ok newId
        ∧ ∃ raffle : Raffle,
            (sys.importPredefinedRaffle pname countedTeams uncountedTeams
              seats maxE newId).1.state.raffles.lookup newId = some raffle
            ∧ raffle.result = some (RaffleResult.new
                (countedTeams.filterMap sys.getTeamIdByName)
                (uncountedTeams.filterMap sys.getTeamIdByName)))
    ∧ (∀ (initBlock randBlock : Nat) (rand : String)
        (tOrd exT : Option (List String)) (tc me : Option Nat),
        me.getD sys.config.defaultMaxEarnerSeats
            > tc.getD sys.config.defaultTotalCountedSeats →
        (sys.importHistoricalRaffle pname initBlock randBlock rand tOrd exT
            tc me newId).1 = sys
        ∧ ∀ rid, (sys.importHistoricalRaffle pname initBlock randBlock rand
            tOrd exT tc me newId).2 ≠ Except.ok rid) := by
  refine ⟨?_, ?_, ?_, ?_⟩
  · intro hlen
    rcases hp : sys.getProposalIdByName pname with _ | pid
    · simp [BudgetSystem.importPredefinedRaffle, hp]
    · rcases hce : sys.state.currentEpoch with _ | eid
      · simp [BudgetSystem.importPredefinedRaffle, hp, hce]
      · simp [BudgetSystem.importPredefinedRaffle, hp, hce, hlen]
  · intro hme
    rcases hp : sys.getProposalIdByName pname with _ | pid
    · simp [BudgetSystem.importPredefinedRaffle, hp]
    · rcases hce : sys.state.currentEpoch with _ | eid
      · simp [BudgetSystem.importPredefinedRaffle, hp, hce]
      · by_cases hlen : (countedTeams.filterMap sys.getTeamIdByName).length = seats
        · simp [BudgetSystem.importPredefinedRaffle, hp, hce, hlen, hme]
        · simp [BudgetSystem.importPredefinedRaffle, hp, hce, hlen]
  · intro pid eid hp hce hlen hme hfresh
    constructor
    · simp [BudgetSystem.importPredefinedRaffle, hp, hce, hlen, hme,
        Raffle.new]
    · simp only [BudgetSystem.importPredefinedRaffle, hp, hce, hlen, hme,
        Raffle.new, ne_eq, not_true_eq_false, reduceIte, gt_iff_lt,
        Bool.false_eq_true, if_false]
      refine ⟨_, madd_lookup_fresh _ _ _ hfresh, rfl⟩
  · intro initBlock randBlock rand tOrd exT tc me hme
    rcases hp : sys.getProposalIdByName pname with _ | pid
    · simp [BudgetSystem.importHistoricalRaffle, hp]
    · rcases hce : sys.state.currentEpoch with _ | eid
      · simp [BudgetSystem.importHistoricalRaffle, hp, hce]
      · simp [BudgetSystem.importHistoricalRaffle, hp, hce, hme]

/-- C9 witness: importing a predefined raffle with one resolved counted team
and one counted seat into the concrete system `c9Sys` succeeds and stores
the given counted/uncounted result [1]/[2]. -/
theorem c9_import_raffle_validation_witness :
    c9Sys.getProposalIdByName "P9" = some 20 ∧
    c9Sys.state.currentEpoch = some 10 ∧
    ((["Team A"].filterMap c9Sys.getTeamIdByName).length = 1) ∧
    ¬(1 > 1) ∧
    c9Sys.state.raffles.lookup 50 = none ∧
    ((c9Sys.importPredefinedRaffle "P9" ["Team A"] ["Team B"] 1 1 50).2
        = Except.ok 50
      ∧ ∃ raffle : Raffle,
          (c9Sys.importPredefinedRaffle "P9" ["Team A"] ["Team B"]
            1 1 50).1.state.raffles.lookup 50 = some raffle
          ∧ raffle.result = some (RaffleResult.new
              (["Team A"].filterMap c9Sys.getTeamIdByName)
              (["Team B"].filterMap c9Sys.getTeamIdByName))) :=
  ⟨rfl, rfl, rfl, by decide, rfl,
    (c9_import_raffle_validation c9Sys "P9" ["Team A"] ["Team B"] 1 1 50).2.2.1
      20 10 rfl rfl rfl (by decide) rfl⟩

end Robokitty
